import Mathlib

/-!
Shallow embedding of the express-ts-app authentication and user-profile
pipeline (validation middleware, JWT issuance/verification, cookie-based
authentication guard, and the login/register/user-profile handlers), with
theorems checking the natural-language specification against it.

Modelling conventions:
* JSON values are the inductive `Json`; machine numbers appearing in the
  app (timestamps, page counters) are modelled as `Int`/`Nat`.
* A JWT string is modelled by the inductive `Token`: `Token.signed fields
  secret` stands for a syntactically well-formed JWT whose HMAC signature
  was produced with `secret` over the claims object `fields`;
  `Token.malformed s` stands for any other cookie string `s`.  HMAC
  unforgeability is idealised: verification under `secret` succeeds
  exactly on `Token.signed _ secret`.
* Timestamps are epoch seconds (`Nat` for clocks, `Int` inside JSON).
* bcrypt is external: handlers that hash or compare passwords take the
  hash/compare function as an explicit parameter.
* The Prisma-backed Profile Store is a list of `UserProfile` records;
  `findUnique`/`create`/`update`/`delete`/`findMany` are embedded as the
  corresponding list operations.
-/

namespace ExpressTsApp

/-- JSON values (payloads, request bodies, response bodies). -/
inductive Json where
  | null : Json
  | bool (b : Bool) : Json
  | num (n : Int) : Json
  | str (s : String) : Json
  | arr (elems : List Json) : Json
  | obj (fields : List (String × Json)) : Json

/-- Look a key up in an association list of JSON object fields. -/
def lookupField (fields : List (String × Json)) (key : String) : Option Json :=
  match fields with
  | [] => none
  | (k, v) :: rest => if k = key then some v else lookupField rest key

/-- JavaScript `key in object` on a JSON value (false off objects). -/
def Json.hasKey (j : Json) (key : String) : Bool :=
  match j with
  | .obj fields => (lookupField fields key).isSome
  | _ => false

/-- The string Zod reports as the `received` type of a JSON value. -/
def Json.typeName (j : Json) : String :=
  match j with
  | .null => "null"
  | .bool _ => "boolean"
  | .num _ => "number"
  | .str _ => "string"
  | .arr _ => "array"
  | .obj _ => "object"

/-- `src/src/features/user-authentication/user-authentication-helpers.ts`:
`export const JWT_COOKIE_NAME = 'jwt'`. -/
def JWT_COOKIE_NAME : String := "jwt"

/-- A JWT string, abstracting the signature: `signed fields secret` is a
well-formed token signed with `secret` over claims `fields`; `malformed s`
is any other string (including the empty string). -/
inductive Token where
  | signed (fields : List (String × Json)) (secret : String) : Token
  | malformed (s : String) : Token

/-- The failure modes of `jsonwebtoken`'s `jwt.verify`. -/
inductive JwtError where
  | malformedToken : JwtError
  | invalidSignature : JwtError
  | expired : JwtError

/-- `jwt.verify(token, secret)` at clock time `now` (epoch seconds):
rejects malformed strings, rejects a signature made with a different
secret, rejects when the `exp` claim is ≤ `now`, and otherwise returns
the decoded claims object. -/
def jwtVerify (t : Token) (secret : String) (now : Nat) : Except JwtError Json :=
  match t with
  | .malformed _ => .error .malformedToken
  | .signed fields s =>
    if s = secret then
      match lookupField fields "exp" with
      | some (.num e) => if e ≤ (now : Int) then .error .expired else .ok (.obj fields)
      | _ => .ok (.obj fields)
    else .error .invalidSignature

/-- The stored user record (Prisma `UserProfile`); timestamps in epoch
seconds. -/
structure UserProfile where
  id : String
  email : String
  name : String
  hashedPassword : String
  createdAt : Nat
  updatedAt : Nat

/-- `generateJwtToken` (user-authentication-helpers.ts): signs the payload
`{ id, email }` with the server secret and `expiresIn: 60 * 60 * 24 * 365`;
`jwt.sign` adds the `iat` and `exp` claims to the payload. -/
def generateJwtToken (userProfile : UserProfile) (secret : String) (now : Nat) : Token :=
  .signed
    [("id", .str userProfile.id),
     ("email", .str userProfile.email),
     ("iat", .num (now : Int)),
     ("exp", .num ((now : Int) + 60 * 60 * 24 * 365))]
    secret

/-- `isTokenValid` (user-authentication-helpers.ts): the decoded value is
an object that has an `id` key and an `email` key — a key-presence check
only. -/
def isTokenValid (token : Json) : Bool :=
  match token with
  | .obj fields => (lookupField fields "id").isSome && (lookupField fields "email").isSome
  | _ => false

/-- An incoming HTTP request: parsed cookies (`cookie-parser`), parsed JSON
body, and the raw query / path parameters (always strings). -/
structure Request where
  cookies : List (String × Token)
  body : Json
  query : List (String × String)
  params : List (String × String)

/-- Look a cookie up by name. -/
def lookupCookie (request : Request) (name : String) : Option Token :=
  match request.cookies.find? (fun c => c.1 = name) with
  | some c => some c.2
  | none => none

/-- JavaScript falsiness of `request.cookies[JWT_COOKIE_NAME]`: the cookie
is missing (`undefined`) or is the empty string. -/
def tokenIsFalsy (t : Option Token) : Bool :=
  match t with
  | none => true
  | some (.malformed s) => s.isEmpty
  | some _ => false

/-- The failure modes of `getJwtTokenFromCookie`. -/
inductive AuthError where
  | noToken : AuthError
  | jwtError (e : JwtError) : AuthError
  | invalidTokenPayload : AuthError

/-- `getJwtTokenFromCookie` (user-authentication-helpers.ts): read the
`jwt` cookie (falsy → `Error('No token found')`), `jwt.verify` it
(throws on malformed/expired/bad signature), then check `isTokenValid`
(failure → `Error('Invalid token payload')`). -/
def getJwtTokenFromCookie (request : Request) (secret : String) (now : Nat) :
    Except AuthError Json :=
  let token := lookupCookie request JWT_COOKIE_NAME
  if tokenIsFalsy token then .error .noToken
  else
    match token with
    | none => .error .noToken
    | some t =>
      match jwtVerify t secret now with
      | .error e => .error (.jwtError e)
      | .ok decodedToken =>
        if isTokenValid decodedToken then .ok decodedToken
        else .error .invalidTokenPayload

/-- An HTTP response: status code and JSON body. -/
structure HttpResponse where
  status : Nat
  body : Json

/-- The response `requireAuthentication` sends on any failure. -/
def unauthorizedResponse : HttpResponse :=
  ⟨401, .obj [("message", .str "Unauthorized")]⟩

/-- `requireAuthentication` (middleware/require-authentication.ts): return
the token payload, or catch any failure of `getJwtTokenFromCookie` and
answer 401 `{ message: 'Unauthorized' }`, aborting the handler. -/
def requireAuthentication (request : Request) (secret : String) (now : Nat) :
    Except HttpResponse Json :=
  match getJwtTokenFromCookie request secret now with
  | .ok payload => .ok payload
  | .error _ => .error unauthorizedResponse

/-! ## Schema validation (the Zod subset the app uses)

The app's five schemas use `z.string()` with the `email`, `min`, and
`cuid2` refinements, `z.never().optional()`, and
`z.coerce.number().positive().default(d)`.  Issue objects follow Zod v3:
`invalid_type` issues carry `code`, `expected`, `received`, `path`,
`message`; `invalid_string` issues carry `validation`, `code`, `message`,
`path`; `too_small` issues carry `code`, `minimum`, `type`, `inclusive`,
`exact`, `message`, `path`.  The email and cuid2 format predicates are
executable abstractions of Zod's regexes; JavaScript number coercion is
restricted to integers. -/

/-- Split a character list at the first occurrence of `c`; `none` when `c`
does not occur. -/
def splitAtChar (c : Char) : List Char → Option (List Char × List Char)
  | [] => none
  | x :: xs =>
    if x = c then some ([], xs)
    else match splitAtChar c xs with
      | some (l, r) => some (x :: l, r)
      | none => none

/-- Characters allowed in the local part of an email address. -/
def isEmailLocalChar (c : Char) : Bool :=
  c.isAlphanum || c = '.' || c = '_' || c = '+' || c = '-' || c = '\''

/-- Characters allowed in the domain part of an email address. -/
def isEmailDomainChar (c : Char) : Bool :=
  c.isAlphanum || c = '.' || c = '-'

/-- Abstraction of Zod's email regex: one `@`, a nonempty local part of
allowed characters, and a domain of allowed characters containing a dot,
with at least two characters after the last dot. -/
def isEmailFormat (s : String) : Bool :=
  match splitAtChar '@' s.data with
  | none => false
  | some (localPart, domain) =>
    !localPart.isEmpty && localPart.all isEmailLocalChar &&
    domain.all isEmailDomainChar &&
    match splitAtChar '.' domain.reverse with
    | none => false
    | some (tldRev, restRev) =>
      decide (2 ≤ tldRev.length) && tldRev.all Char.isAlphanum && !restRev.isEmpty

/-- Zod's cuid2 regex `^[0-9a-z]+$`. -/
def isCuid2Format (s : String) : Bool :=
  !s.data.isEmpty && s.data.all (fun c => c.isDigit || (c.isLower && c.isAlpha))

/-- JavaScript `Number(value)` restricted to integers: non-numeric strings
give `none` (NaN). -/
def jsToNumber (j : Json) : Option Int :=
  match j with
  | .num n => some n
  | .bool b => some (if b then 1 else 0)
  | .null => some 0
  | .str s =>
    if s.isEmpty then some 0
    else match s.data with
      | '-' :: ds => if !ds.isEmpty && ds.all Char.isDigit then some (-(digitsToNat ds : Int)) else none
      | ds => if ds.all Char.isDigit then some (digitsToNat ds) else none
  | _ => none
where
  digitsToNat (ds : List Char) : Nat :=
    ds.foldl (fun acc c => acc * 10 + (c.toNat - '0'.toNat)) 0

/-- A Zod `invalid_type` issue. -/
def invalidTypeIssue (expected received message path : String) : Json :=
  .obj [("code", .str "invalid_type"), ("expected", .str expected),
        ("received", .str received), ("path", .arr [.str path]),
        ("message", .str message)]

/-- A Zod `invalid_string` issue (format refinements). -/
def invalidStringIssue (validation path : String) : Json :=
  .obj [("validation", .str validation), ("code", .str "invalid_string"),
        ("message", .str ("Invalid " ++ validation)), ("path", .arr [.str path])]

/-- A Zod `too_small` issue for `z.string().min(n)`. -/
def stringTooSmallIssue (n : Nat) (path : String) : Json :=
  .obj [("code", .str "too_small"), ("minimum", .num (n : Int)),
        ("type", .str "string"), ("inclusive", .bool true), ("exact", .bool false),
        ("message", .str ("String must contain at least " ++ toString n ++ " character(s)")),
        ("path", .arr [.str path])]

/-- A Zod `too_small` issue for `z.number().positive()`. -/
def numberTooSmallIssue (path : String) : Json :=
  .obj [("code", .str "too_small"), ("minimum", .num 0),
        ("type", .str "number"), ("inclusive", .bool false), ("exact", .bool false),
        ("message", .str "Number must be greater than 0"),
        ("path", .arr [.str path])]

/-- The string refinements used by the app's schemas. -/
inductive StringCheck where
  | email : StringCheck
  | minLength (n : Nat) : StringCheck
  | cuid2 : StringCheck

/-- Run one string refinement; returns the issues it raises. -/
def runStringCheck (path : String) (s : String) (c : StringCheck) : List Json :=
  match c with
  | .email => if isEmailFormat s then [] else [invalidStringIssue "email" path]
  | .minLength n => if n ≤ s.length then [] else [stringTooSmallIssue n path]
  | .cuid2 => if isCuid2Format s then [] else [invalidStringIssue "cuid2" path]

/-- The field declarations the app's schemas use. -/
inductive FieldSchema where
  | requiredString (checks : List StringCheck) : FieldSchema
  | optionalString (checks : List StringCheck) : FieldSchema
  | neverField : FieldSchema
  | coercedPositiveNumberDefault (d : Int) : FieldSchema

/-- An object schema: field names with their declarations, in shape order. -/
abbrev ObjectSchema := List (String × FieldSchema)

/-- Parse a string value against refinements. -/
def parseStringValue (path : String) (checks : List StringCheck) (v : Json) :
    Except (List Json) (Option Json) :=
  match v with
  | .str s =>
    match checks.flatMap (runStringCheck path s) with
    | [] => .ok (some (.str s))
    | issues => .error issues
  | other =>
    .error [invalidTypeIssue "string" other.typeName
      ("Expected string, received " ++ other.typeName) path]

/-- Parse one field of an object schema from its (possibly absent) raw
value; `Except.ok none` means the field is omitted from the result. -/
def parseField (path : String) (fs : FieldSchema) (v : Option Json) :
    Except (List Json) (Option Json) :=
  match fs, v with
  | .requiredString _, none =>
    .error [invalidTypeIssue "string" "undefined" "Required" path]
  | .requiredString checks, some v => parseStringValue path checks v
  | .optionalString _, none => .ok none
  | .optionalString checks, some v => parseStringValue path checks v
  | .neverField, none => .ok none
  | .neverField, some v =>
    .error [invalidTypeIssue "never" v.typeName
      ("Expected never, received " ++ v.typeName) path]
  | .coercedPositiveNumberDefault d, none => .ok (some (.num d))
  | .coercedPositiveNumberDefault _, some v =>
    match jsToNumber v with
    | none => .error [invalidTypeIssue "number" "nan" "Expected number, received nan" path]
    | some n => if 0 < n then .ok (some (.num n)) else .error [numberTooSmallIssue path]

/-- Parse every field of a schema against the raw object's fields,
collecting issues in shape order and keeping only declared fields. -/
def parseObjectFields (schema : ObjectSchema) (input : List (String × Json)) :
    List Json × List (String × Json) :=
  match schema with
  | [] => ([], [])
  | (name, fs) :: rest =>
    let tail := parseObjectFields rest input
    match parseField name fs (lookupField input name) with
    | .error issues => (issues ++ tail.1, tail.2)
    | .ok none => tail
    | .ok (some v) => (tail.1, (name, v) :: tail.2)

/-- `schema.parseAsync(value)`: non-objects are one root `invalid_type`
issue; objects are parsed field by field. -/
def zodParse (schema : ObjectSchema) (input : Json) : Except (List Json) Json :=
  match input with
  | .obj fields =>
    match parseObjectFields schema fields with
    | ([], parsed) => .ok (.obj parsed)
    | (issues, _) => .error issues
  | other =>
    .error [.obj [("code", .str "invalid_type"), ("expected", .str "object"),
                  ("received", .str other.typeName), ("path", .arr []),
                  ("message", .str ("Expected object, received " ++ other.typeName))]]

/-- `createValidate` (middleware/validate.ts): on a `ZodError`, respond
400 `{ message: 'Bad Request', errors }` (and throw, aborting the
handler); on success return the parsed value. -/
def createValidate (schema : ObjectSchema) (input : Json) : Except HttpResponse Json :=
  match zodParse schema input with
  | .ok result => .ok result
  | .error issues =>
    .error ⟨400, .obj [("message", .str "Bad Request"), ("errors", .arr issues)]⟩

/-- Login/register body schema: `{ email: z.string().email(), password:
z.string().min(8) }`. -/
def loginBodySchema : ObjectSchema :=
  [("email", .requiredString [.email]), ("password", .requiredString [.minLength 8])]

/-- Path-parameter schema `{ id: z.string().cuid2() }`. -/
def idParamsSchema : ObjectSchema :=
  [("id", .requiredString [.cuid2])]

/-- PATCH body schema: `{ email: z.string().email().optional(), name:
z.string().optional(), id: z.never().optional() }`. -/
def patchBodySchema : ObjectSchema :=
  [("email", .optionalString [.email]), ("name", .optionalString []),
   ("id", .neverField)]

/-- Pagination query schema: `{ page: z.coerce.number().positive()
.default(1), pageSize: z.coerce.number().positive().default(10) }`. -/
def paginationQuerySchema : ObjectSchema :=
  [("page", .coercedPositiveNumberDefault 1),
   ("pageSize", .coercedPositiveNumberDefault 10)]

/-! ## Profile Store and handlers -/

/-- The Profile Store: the list of persisted user records. -/
abbrev Store := List UserProfile

/-- `retrieveUserProfileFromDatabaseByEmail`: `findUnique({ where: { email } })`. -/
def findByEmail (email : String) (store : Store) : Option UserProfile :=
  List.find? (fun p => p.email = email) store

/-- `retrieveUserProfileFromDatabaseById`: `findUnique({ where: { id } })`. -/
def findById (id : String) (store : Store) : Option UserProfile :=
  List.find? (fun p => p.id = id) store

/-- `orderBy: { createdAt: 'desc' }`: newest records first. -/
def createdAtDesc (a b : UserProfile) : Prop :=
  b.createdAt ≤ a.createdAt

instance : DecidableRel createdAtDesc := fun a b =>
  inferInstanceAs (Decidable (b.createdAt ≤ a.createdAt))

instance : IsTotal UserProfile createdAtDesc :=
  ⟨fun a b => (Nat.le_total b.createdAt a.createdAt).imp id id⟩

instance : IsTrans UserProfile createdAtDesc :=
  ⟨fun _ _ _ hab hbc => Nat.le_trans hbc hab⟩

/-- `retrieveManyUserProfilesFromDatabase` (user-profile-model.ts):
`skip = (page - 1) * pageSize`, `findMany({ skip, take: pageSize,
orderBy: { createdAt: 'desc' } })`. -/
def retrieveManyUserProfilesFromDatabase (page pageSize : Int) (store : Store) :
    List UserProfile :=
  let skip := (page - 1) * pageSize
  (((List.insertionSort createdAtDesc store).drop skip.toNat).take pageSize.toNat)

/-- `res.json(profile)` of a stored record: every column, including
`hashedPassword` (timestamps rendered as their epoch-second value). -/
def profileToJson (p : UserProfile) : Json :=
  .obj [("id", .str p.id), ("email", .str p.email), ("name", .str p.name),
        ("createdAt", .num (p.createdAt : Int)), ("updatedAt", .num (p.updatedAt : Int)),
        ("hashedPassword", .str p.hashedPassword)]

/-- Events a handler can perform after the authentication guard. -/
inductive Effect where
  | validate : Effect
  | dbRead : Effect
  | dbWrite : Effect

/-- Cookie mutations a handler performs on the response. -/
inductive CookieOp where
  | set (token : Token) : CookieOp
  | clear : CookieOp

/-- The observable outcome of running one handler: the HTTP response, the
Profile Store afterwards, the cookie mutations, and the trace of
validation/store events. -/
structure HandlerResult where
  response : HttpResponse
  store : Store
  cookieOps : List CookieOp
  effects : List Effect

/-- Read a string field out of a validated body (present on the success
paths the handlers use it on). -/
def getStringField (j : Json) (key : String) : String :=
  match j with
  | .obj fields =>
    match lookupField fields key with
    | some (.str s) => s
    | _ => ""
  | _ => ""

/-- Read a numeric field out of a validated query object. -/
def getNumField (j : Json) (key : String) (d : Int) : Int :=
  match j with
  | .obj fields =>
    match lookupField fields key with
    | some (.num n) => n
    | _ => d
  | _ => d

/-- Lift raw string parameters (query / path) to the JSON object Zod
parses. -/
def stringPairsToJson (pairs : List (String × String)) : Json :=
  .obj (pairs.map (fun p => (p.1, .str p.2)))

/-- `login` (user-authentication-controller.ts): validate the body, look
the user up by email, compare the password, and either set the JWT cookie
with 200 or answer 401 `{ message: 'Invalid credentials' }`.  `compare`
is the bcrypt comparison oracle. -/
def login (compare : String → String → Bool) (secret : String) (now : Nat)
    (request : Request) (store : Store) : HandlerResult :=
  match createValidate loginBodySchema request.body with
  | .error resp => ⟨resp, store, [], [.validate]⟩
  | .ok body =>
    let email := getStringField body "email"
    let password := getStringField body "password"
    match findByEmail email store with
    | some user =>
      if compare password user.hashedPassword then
        let token := generateJwtToken user secret now
        ⟨⟨200, .obj [("message", .str "Logged in successfully")]⟩, store,
         [.set token], [.validate, .dbRead]⟩
      else
        ⟨⟨401, .obj [("message", .str "Invalid credentials")]⟩, store,
         [], [.validate, .dbRead]⟩
    | none =>
      ⟨⟨401, .obj [("message", .str "Invalid credentials")]⟩, store,
       [], [.validate, .dbRead]⟩

/-- `register` (user-authentication-controller.ts): validate the body,
check email uniqueness (409 on conflict), else hash the password, create
the record (fresh cuid2 `id`, `name` defaulted to `''`, timestamps set on
create), issue the token, set the cookie, 201.  `hashFn` is the bcrypt
hashing oracle and `newId` the generated id. -/
def register (hashFn : String → String) (newId : String) (secret : String)
    (now : Nat) (request : Request) (store : Store) : HandlerResult :=
  match createValidate loginBodySchema request.body with
  | .error resp => ⟨resp, store, [], [.validate]⟩
  | .ok body =>
    let email := getStringField body "email"
    let password := getStringField body "password"
    match findByEmail email store with
    | some _ =>
      ⟨⟨409, .obj [("message", .str "User already exists")]⟩, store,
       [], [.validate, .dbRead]⟩
    | none =>
      let user : UserProfile :=
        ⟨newId, email, "", hashFn password, now, now⟩
      let token := generateJwtToken user secret now
      ⟨⟨201, .obj [("message", .str "User registered successfully")]⟩,
       store ++ [user], [.set token], [.validate, .dbRead, .dbWrite]⟩

/-- `getAllUserProfiles` (user-profile-controller.ts): `requireAuthentication`
first, then validate the pagination query, then read the page from the
store. -/
def getAllUserProfiles (secret : String) (now : Nat) (request : Request)
    (store : Store) : HandlerResult :=
  match requireAuthentication request secret now with
  | .error resp => ⟨resp, store, [], []⟩
  | .ok _ =>
    match createValidate paginationQuerySchema (stringPairsToJson request.query) with
    | .error resp => ⟨resp, store, [], [.validate]⟩
    | .ok query =>
      let page := getNumField query "page" 0
      let pageSize := getNumField query "pageSize" 10
      let profiles := retrieveManyUserProfilesFromDatabase page pageSize store
      ⟨⟨200, .arr (profiles.map profileToJson)⟩, store, [], [.validate, .dbRead]⟩

/-- `getUserProfileById` (user-profile-controller.ts): `requireAuthentication`
first, validate the `id` path parameter, then `findUnique`; 200 with the
record or 404 `{ message: 'Not Found' }`. -/
def getUserProfileById (secret : String) (now : Nat) (request : Request)
    (store : Store) : HandlerResult :=
  match requireAuthentication request secret now with
  | .error resp => ⟨resp, store, [], []⟩
  | .ok _ =>
    match createValidate idParamsSchema (stringPairsToJson request.params) with
    | .error resp => ⟨resp, store, [], [.validate]⟩
    | .ok params =>
      let id := getStringField params "id"
      match findById id store with
      | some profile =>
        ⟨⟨200, profileToJson profile⟩, store, [], [.validate, .dbRead]⟩
      | none =>
        ⟨⟨404, .obj [("message", .str "Not Found")]⟩, store, [], [.validate, .dbRead]⟩

/-- Apply a validated PATCH body to a record: overwrite `email` / `name`
when present, refresh `updatedAt` (`@updatedAt` column). -/
def applyUpdate (p : UserProfile) (body : Json) (now : Nat) : UserProfile :=
  { p with
    email := match body with
      | .obj fields => match lookupField fields "email" with
        | some (.str e) => e
        | _ => p.email
      | _ => p.email
    name := match body with
      | .obj fields => match lookupField fields "name" with
        | some (.str n) => n
        | _ => p.name
      | _ => p.name
    updatedAt := now }

/-- Does updating `p`'s email from `body` collide with another record's
unique `email` column? -/
def emailConflict (p : UserProfile) (body : Json) (store : Store) : Bool :=
  match body with
  | .obj fields =>
    match lookupField fields "email" with
    | some (.str e) => store.any (fun q => !(q.id = p.id : Bool) && (q.email = e : Bool))
    | _ => false
  | _ => false

/-- Number of own keys of a validated body (`Object.keys(body).length`). -/
def jsonObjSize (j : Json) : Nat :=
  match j with
  | .obj fields => fields.length
  | _ => 0

/-- `updateUserProfile` (user-profile-controller.ts): guard, validate the
`id` parameter and the PATCH body, reject empty bodies (400) and bodies
with `id` (400), then `update({ where: { id } })` — 404 when the record is
missing, 409 on a unique-email conflict, else 200 with the updated
record. -/
def updateUserProfile (secret : String) (now : Nat) (request : Request)
    (store : Store) : HandlerResult :=
  match requireAuthentication request secret now with
  | .error resp => ⟨resp, store, [], []⟩
  | .ok _ =>
    match createValidate idParamsSchema (stringPairsToJson request.params) with
    | .error resp => ⟨resp, store, [], [.validate]⟩
    | .ok params =>
      let id := getStringField params "id"
      match createValidate patchBodySchema request.body with
      | .error resp => ⟨resp, store, [], [.validate, .validate]⟩
      | .ok body =>
        if jsonObjSize body = 0 then
          ⟨⟨400, .obj [("message", .str "No valid fields to update")]⟩, store,
           [], [.validate, .validate]⟩
        else if body.hasKey "id" then
          ⟨⟨400, .obj [("message", .str "ID cannot be updated")]⟩, store,
           [], [.validate, .validate]⟩
        else
          match findById id store with
          | none =>
            ⟨⟨404, .obj [("message", .str "Not Found")]⟩, store,
             [], [.validate, .validate, .dbWrite]⟩
          | some p =>
            if emailConflict p body store then
              ⟨⟨409, .obj [("message", .str "Profile already exists")]⟩, store,
               [], [.validate, .validate, .dbWrite]⟩
            else
              let updated := applyUpdate p body now
              ⟨⟨200, profileToJson updated⟩,
               store.map (fun q => if q.id = p.id then updated else q),
               [], [.validate, .validate, .dbWrite]⟩

/-- `deleteUserProfile` (user-profile-controller.ts): guard, validate the
`id` parameter, then `delete({ where: { id } })` — 404 when missing, else
200 with the deleted record. -/
def deleteUserProfile (secret : String) (now : Nat) (request : Request)
    (store : Store) : HandlerResult :=
  match requireAuthentication request secret now with
  | .error resp => ⟨resp, store, [], []⟩
  | .ok _ =>
    match createValidate idParamsSchema (stringPairsToJson request.params) with
    | .error resp => ⟨resp, store, [], [.validate]⟩
    | .ok params =>
      let id := getStringField params "id"
      match findById id store with
      | some p =>
        ⟨⟨200, profileToJson p⟩, store.eraseP (fun q => q.id = p.id),
         [], [.validate, .dbWrite]⟩
      | none =>
        ⟨⟨404, .obj [("message", .str "Not Found")]⟩, store,
         [], [.validate, .dbWrite]⟩

/-- Accessor for a claim embedded in a token. -/
def tokenClaim (t : Token) (key : String) : Option Json :=
  match t with
  | .signed fields _ => lookupField fields key
  | .malformed _ => none

/-- Accessor for a field of a JSON object (used to inspect response
bodies). -/
def jsonField (j : Json) (key : String) : Option Json :=
  match j with
  | .obj fields => lookupField fields key
  | _ => none

/-- Does `parseField` reject this schema field on this input object? -/
def parseFieldFails (input : List (String × Json)) (nf : String × FieldSchema) : Bool :=
  match parseField nf.1 nf.2 (lookupField input nf.1) with
  | .error _ => true
  | .ok _ => false

/-- Fields of the app's schemas carry at most one string refinement. -/
def singleCheckField (fs : FieldSchema) : Bool :=
  match fs with
  | .requiredString checks => checks.length ≤ 1
  | .optionalString checks => checks.length ≤ 1
  | .neverField => true
  | .coercedPositiveNumberDefault _ => true

/-- Every Zod issue carries at least `code`, `message` and `path`. -/
def issueHasBasicKeys (j : Json) : Bool :=
  j.hasKey "code" && j.hasKey "message" && j.hasKey "path"

/-! ## Helper lemmas -/

/-- Any failure of `getJwtTokenFromCookie` makes `requireAuthentication`
answer the canonical 401 response. -/
theorem requireAuthentication_of_error {request : Request} {secret : String}
    {now : Nat} {e : AuthError}
    (h : getJwtTokenFromCookie request secret now = .error e) :
    requireAuthentication request secret now = .error unauthorizedResponse := by
  unfold requireAuthentication
  rw [h]

/-- A missing cookie fails the guard. -/
theorem getJwtTokenFromCookie_noCookie {request : Request} (secret : String)
    (now : Nat) (h : lookupCookie request JWT_COOKIE_NAME = none) :
    getJwtTokenFromCookie request secret now = .error .noToken := by
  unfold getJwtTokenFromCookie
  rw [h]
  rfl

/-- A malformed cookie string fails the guard (as `noToken` when empty,
as a JWT error otherwise). -/
theorem getJwtTokenFromCookie_malformed {request : Request} (secret : String)
    (now : Nat) {s : String}
    (h : lookupCookie request JWT_COOKIE_NAME = some (.malformed s)) :
    ∃ e, getJwtTokenFromCookie request secret now = .error e := by
  unfold getJwtTokenFromCookie
  rw [h]
  by_cases hs : s.isEmpty
  · exact ⟨.noToken, by simp [tokenIsFalsy, hs]⟩
  · exact ⟨.jwtError .malformedToken, by simp [tokenIsFalsy, hs, jwtVerify]⟩

/-- A token signed with a different secret fails the guard. -/
theorem getJwtTokenFromCookie_wrongSecret {request : Request} {secret : String}
    (now : Nat) {fields : List (String × Json)} {s : String}
    (h : lookupCookie request JWT_COOKIE_NAME = some (.signed fields s))
    (hs : s ≠ secret) :
    getJwtTokenFromCookie request secret now = .error (.jwtError .invalidSignature) := by
  unfold getJwtTokenFromCookie
  rw [h]
  simp [tokenIsFalsy, jwtVerify, hs]

/-- A token whose `exp` claim has passed fails the guard. -/
theorem getJwtTokenFromCookie_expired {request : Request} {secret : String}
    {now : Nat} {fields : List (String × Json)} {e : Int}
    (h : lookupCookie request JWT_COOKIE_NAME = some (.signed fields secret))
    (hexp : lookupField fields "exp" = some (.num e))
    (hle : e ≤ (now : Int)) :
    getJwtTokenFromCookie request secret now = .error (.jwtError .expired) := by
  unfold getJwtTokenFromCookie
  rw [h]
  simp [tokenIsFalsy, jwtVerify, hexp, hle]

/-! ## Claim theorems -/

/-- C1: whenever the jwt cookie is absent, or the cookie string is
malformed, or the token's signature was made with a different secret, or
the token is expired, the authentication guard answers exactly
HTTP 401 with body `{ message: "Unauthorized" }` — the same outcome in
all four cases. -/
theorem auth_guard_uniform_unauthorized (request : Request) (secret : String)
    (now : Nat)
    (h : lookupCookie request JWT_COOKIE_NAME = none ∨
         (∃ s, lookupCookie request JWT_COOKIE_NAME = some (.malformed s)) ∨
         (∃ fields s, lookupCookie request JWT_COOKIE_NAME = some (.signed fields s) ∧
            s ≠ secret) ∨
         (∃ fields e, lookupCookie request JWT_COOKIE_NAME = some (.signed fields secret) ∧
            lookupField fields "exp" = some (.num e) ∧ e ≤ (now : Int))) :
    requireAuthentication request secret now = .error unauthorizedResponse ∧
    unauthorizedResponse = ⟨401, .obj [("message", .str "Unauthorized")]⟩ := by
  refine ⟨?_, rfl⟩
  rcases h with h | ⟨s, h⟩ | ⟨fields, s, h, hs⟩ | ⟨fields, e, h, hexp, hle⟩
  · exact requireAuthentication_of_error (getJwtTokenFromCookie_noCookie secret now h)
  · obtain ⟨e, he⟩ := getJwtTokenFromCookie_malformed secret now h
    exact requireAuthentication_of_error he
  · exact requireAuthentication_of_error (getJwtTokenFromCookie_wrongSecret now h hs)
  · exact requireAuthentication_of_error (getJwtTokenFromCookie_expired h hexp hle)

/-- C1 witness: a request with no cookies gets the canonical 401. -/
theorem auth_guard_uniform_unauthorized_witness :
    requireAuthentication ⟨[], .obj [], [], []⟩ "secret" 0 = .error unauthorizedResponse ∧
    unauthorizedResponse = ⟨401, .obj [("message", .str "Unauthorized")]⟩ :=
  auth_guard_uniform_unauthorized ⟨[], .obj [], [], []⟩ "secret" 0 (.inl rfl)

/-- C2: when authentication fails, each of the four protected
user-profile handlers returns the guard's 401 response with the store
unchanged and an empty effect trace — no validation and no store access
happen. -/
theorem unauthenticated_requests_never_reach_store (secret : String) (now : Nat)
    (request : Request) (store : Store) (e : AuthError)
    (h : getJwtTokenFromCookie request secret now = .error e) :
    getAllUserProfiles secret now request store = ⟨unauthorizedResponse, store, [], []⟩ ∧
    getUserProfileById secret now request store = ⟨unauthorizedResponse, store, [], []⟩ ∧
    updateUserProfile secret now request store = ⟨unauthorizedResponse, store, [], []⟩ ∧
    deleteUserProfile secret now request store = ⟨unauthorizedResponse, store, [], []⟩ := by
  have hra := requireAuthentication_of_error h
  refine ⟨?_, ?_, ?_, ?_⟩ <;>
    simp only [getAllUserProfiles, getUserProfileById, updateUserProfile,
      deleteUserProfile, hra]

/-- C2 witness: with no cookie, all four handlers leave the one-record
store untouched and trace nothing. -/
theorem unauthenticated_requests_never_reach_store_witness :
    getAllUserProfiles "secret" 0 ⟨[], .obj [], [], []⟩ [⟨"a", "a@x.com", "A", "h", 1, 1⟩]
      = ⟨unauthorizedResponse, [⟨"a", "a@x.com", "A", "h", 1, 1⟩], [], []⟩ ∧
    getUserProfileById "secret" 0 ⟨[], .obj [], [], []⟩ [⟨"a", "a@x.com", "A", "h", 1, 1⟩]
      = ⟨unauthorizedResponse, [⟨"a", "a@x.com", "A", "h", 1, 1⟩], [], []⟩ ∧
    updateUserProfile "secret" 0 ⟨[], .obj [], [], []⟩ [⟨"a", "a@x.com", "A", "h", 1, 1⟩]
      = ⟨unauthorizedResponse, [⟨"a", "a@x.com", "A", "h", 1, 1⟩], [], []⟩ ∧
    deleteUserProfile "secret" 0 ⟨[], .obj [], [], []⟩ [⟨"a", "a@x.com", "A", "h", 1, 1⟩]
      = ⟨unauthorizedResponse, [⟨"a", "a@x.com", "A", "h", 1, 1⟩], [], []⟩ :=
  unauthenticated_requests_never_reach_store "secret" 0 ⟨[], .obj [], [], []⟩
    [⟨"a", "a@x.com", "A", "h", 1, 1⟩] .noToken rfl

/-- C3 counterexample: a correctly-signed, unexpired token whose payload
has a numeric `id` and an extra `admin` claim is ACCEPTED by the
verifier, contradicting the claim that wrong types or extra fields are
rejected (indeed every issued token also carries the extra `iat`/`exp`
claims). -/
theorem token_payload_extra_fields_accepted :
    getJwtTokenFromCookie
      ⟨[("jwt", .signed [("id", .num 42), ("email", .str "e@x.com"),
                         ("admin", .bool true)] "sec")], .obj [], [], []⟩
      "sec" 5
      = .ok (.obj [("id", .num 42), ("email", .str "e@x.com"),
                   ("admin", .bool true)]) := rfl

/-- C3 (amended): for a signature-verified, unexpired token the payload
check is key-presence only — it accepts exactly the payloads that are
objects carrying both an `id` key and an `email` key, regardless of the
key's type or of any extra fields. -/
theorem token_payload_check_is_key_presence_only (request : Request)
    (secret : String) (now : Nat) (fields : List (String × Json)) (e : Int)
    (hc : lookupCookie request JWT_COOKIE_NAME = some (.signed fields secret))
    (hexp : lookupField fields "exp" = some (.num e))
    (hfresh : (now : Int) < e) :
    getJwtTokenFromCookie request secret now =
      (if (lookupField fields "id").isSome && (lookupField fields "email").isSome
       then .ok (.obj fields) else .error .invalidTokenPayload) := by
  have hne : ¬(e ≤ (now : Int)) := Int.not_le.mpr hfresh
  have h2 : jwtVerify (.signed fields secret) secret now = .ok (.obj fields) := by
    simp [jwtVerify, hexp, hne]
  unfold getJwtTokenFromCookie
  rw [hc]
  simp [tokenIsFalsy, h2, isTokenValid]

/-- C3 witness: a token with string `id`/`email` and a future `exp` is
accepted. -/
theorem token_payload_check_is_key_presence_only_witness :
    getJwtTokenFromCookie
      ⟨[("jwt", .signed [("id", .str "u1"), ("email", .str "a@x.com"),
                         ("exp", .num 100)] "sec")], .obj [], [], []⟩
      "sec" 5
      = (if (lookupField [("id", Json.str "u1"), ("email", Json.str "a@x.com"),
                          ("exp", Json.num 100)] "id").isSome &&
            (lookupField [("id", Json.str "u1"), ("email", Json.str "a@x.com"),
                          ("exp", Json.num 100)] "email").isSome
         then .ok (.obj [("id", .str "u1"), ("email", .str "a@x.com"),
                         ("exp", .num 100)])
         else .error .invalidTokenPayload) :=
  token_payload_check_is_key_presence_only
    ⟨[("jwt", .signed [("id", .str "u1"), ("email", .str "a@x.com"),
                       ("exp", .num 100)] "sec")], .obj [], [], []⟩
    "sec" 5 _ 100 rfl rfl (by decide)

/-- C7: every issued token carries `iat = now` and
`exp = now + 31536000` — the embedded expiry is exactly 31,536,000
seconds (365 days) after issuance. -/
theorem token_expiry_is_one_year (userProfile : UserProfile) (secret : String)
    (now : Nat) :
    tokenClaim (generateJwtToken userProfile secret now) "iat"
        = some (.num (now : Int)) ∧
    tokenClaim (generateJwtToken userProfile secret now) "exp"
        = some (.num ((now : Int) + 31536000)) := by
  refine ⟨rfl, ?_⟩
  show some (Json.num ((now : Int) + 60 * 60 * 24 * 365)) = some (Json.num ((now : Int) + 31536000))
  norm_num

/-- C4: once the body validates, a login whose email matches a stored
profile but whose password comparison fails, and a login whose email
matches no profile, both produce exactly HTTP 401 with body
`{ message: "Invalid credentials" }`, touch no cookie, and leave the
store unchanged — the two cases are observationally identical. -/
theorem login_failure_indistinguishable (compare : String → String → Bool)
    (secret : String) (now : Nat) (r1 r2 : Request) (s1 s2 : Store)
    (b1 b2 : Json) (u : UserProfile)
    (hv1 : createValidate loginBodySchema r1.body = .ok b1)
    (hv2 : createValidate loginBodySchema r2.body = .ok b2)
    (hfind1 : findByEmail (getStringField b1 "email") s1 = some u)
    (hcmp : compare (getStringField b1 "password") u.hashedPassword = false)
    (hfind2 : findByEmail (getStringField b2 "email") s2 = none) :
    login compare secret now r1 s1 =
      ⟨⟨401, .obj [("message", .str "Invalid credentials")]⟩, s1, [], [.validate, .dbRead]⟩ ∧
    login compare secret now r2 s2 =
      ⟨⟨401, .obj [("message", .str "Invalid credentials")]⟩, s2, [], [.validate, .dbRead]⟩ ∧
    (login compare secret now r1 s1).response = (login compare secret now r2 s2).response ∧
    (login compare secret now r1 s1).cookieOps = (login compare secret now r2 s2).cookieOps := by
  have h1 : login compare secret now r1 s1 =
      ⟨⟨401, .obj [("message", .str "Invalid credentials")]⟩, s1, [], [.validate, .dbRead]⟩ := by
    unfold login
    rw [hv1]
    simp only [hfind1, hcmp, Bool.false_eq_true, if_false]
  have h2 : login compare secret now r2 s2 =
      ⟨⟨401, .obj [("message", .str "Invalid credentials")]⟩, s2, [], [.validate, .dbRead]⟩ := by
    unfold login
    rw [hv2]
    simp only [hfind2]
  exact ⟨h1, h2, by rw [h1, h2], by rw [h1, h2]⟩

/-- C4 witness: wrong password against a stored record versus an unknown
email, on concrete requests and stores. -/
theorem login_failure_indistinguishable_witness :
    login (fun _ _ => false) "sec" 7
        ⟨[], .obj [("email", .str "a@x.com"), ("password", .str "password123")], [], []⟩
        [⟨"u1", "a@x.com", "A", "hash", 1, 1⟩] =
      ⟨⟨401, .obj [("message", .str "Invalid credentials")]⟩,
       [⟨"u1", "a@x.com", "A", "hash", 1, 1⟩], [], [.validate, .dbRead]⟩ ∧
    login (fun _ _ => false) "sec" 7
        ⟨[], .obj [("email", .str "b@y.com"), ("password", .str "password123")], [], []⟩
        [] =
      ⟨⟨401, .obj [("message", .str "Invalid credentials")]⟩, [], [], [.validate, .dbRead]⟩ ∧
    (login (fun _ _ => false) "sec" 7
        ⟨[], .obj [("email", .str "a@x.com"), ("password", .str "password123")], [], []⟩
        [⟨"u1", "a@x.com", "A", "hash", 1, 1⟩]).response =
      (login (fun _ _ => false) "sec" 7
        ⟨[], .obj [("email", .str "b@y.com"), ("password", .str "password123")], [], []⟩
        []).response ∧
    (login (fun _ _ => false) "sec" 7
        ⟨[], .obj [("email", .str "a@x.com"), ("password", .str "password123")], [], []⟩
        [⟨"u1", "a@x.com", "A", "hash", 1, 1⟩]).cookieOps =
      (login (fun _ _ => false) "sec" 7
        ⟨[], .obj [("email", .str "b@y.com"), ("password", .str "password123")], [], []⟩
        []).cookieOps :=
  login_failure_indistinguishable (fun _ _ => false) "sec" 7
    ⟨[], .obj [("email", .str "a@x.com"), ("password", .str "password123")], [], []⟩
    ⟨[], .obj [("email", .str "b@y.com"), ("password", .str "password123")], [], []⟩
    [⟨"u1", "a@x.com", "A", "hash", 1, 1⟩] []
    (.obj [("email", .str "a@x.com"), ("password", .str "password123")])
    (.obj [("email", .str "b@y.com"), ("password", .str "password123")])
    ⟨"u1", "a@x.com", "A", "hash", 1, 1⟩ rfl rfl rfl rfl rfl

/-- C6: a registration whose valid body names an email already held by a
stored profile answers HTTP 409 `{ message: "User already exists" }`
and performs no write: the store after the request is exactly the store
before it, so the original record with that email is untouched. -/
theorem register_conflict_preserves_store (hashFn : String → String)
    (newId secret : String) (now : Nat) (request : Request) (store : Store)
    (body : Json) (u : UserProfile)
    (hv : createValidate loginBodySchema request.body = .ok body)
    (hfind : findByEmail (getStringField body "email") store = some u) :
    register hashFn newId secret now request store =
      ⟨⟨409, .obj [("message", .str "User already exists")]⟩, store,
       [], [.validate, .dbRead]⟩ ∧
    (register hashFn newId secret now request store).store = store ∧
    findByEmail (getStringField body "email")
      (register hashFn newId secret now request store).store = some u := by
  have h : register hashFn newId secret now request store =
      ⟨⟨409, .obj [("message", .str "User already exists")]⟩, store,
       [], [.validate, .dbRead]⟩ := by
    unfold register
    rw [hv]
    simp only [hfind]
  exact ⟨h, by rw [h], by rw [h]; exact hfind⟩

/-- C6 witness: registering `a@x.com` against a store already holding
that email. -/
theorem register_conflict_preserves_store_witness :
    register (fun p => p) "newid" "sec" 9
        ⟨[], .obj [("email", .str "a@x.com"), ("password", .str "password123")], [], []⟩
        [⟨"u1", "a@x.com", "A", "hash", 1, 1⟩] =
      ⟨⟨409, .obj [("message", .str "User already exists")]⟩,
       [⟨"u1", "a@x.com", "A", "hash", 1, 1⟩], [], [.validate, .dbRead]⟩ ∧
    (register (fun p => p) "newid" "sec" 9
        ⟨[], .obj [("email", .str "a@x.com"), ("password", .str "password123")], [], []⟩
        [⟨"u1", "a@x.com", "A", "hash", 1, 1⟩]).store =
      [⟨"u1", "a@x.com", "A", "hash", 1, 1⟩] ∧
    findByEmail (getStringField
        (.obj [("email", .str "a@x.com"), ("password", .str "password123")]) "email")
      (register (fun p => p) "newid" "sec" 9
        ⟨[], .obj [("email", .str "a@x.com"), ("password", .str "password123")], [], []⟩
        [⟨"u1", "a@x.com", "A", "hash", 1, 1⟩]).store =
      some ⟨"u1", "a@x.com", "A", "hash", 1, 1⟩ :=
  register_conflict_preserves_store (fun p => p) "newid" "sec" 9
    ⟨[], .obj [("email", .str "a@x.com"), ("password", .str "password123")], [], []⟩
    [⟨"u1", "a@x.com", "A", "hash", 1, 1⟩]
    (.obj [("email", .str "a@x.com"), ("password", .str "password123")])
    ⟨"u1", "a@x.com", "A", "hash", 1, 1⟩ rfl rfl

/-- C8: a token issued for a profile at time `now` and presented under
the same secret at any time `t` before its expiry decodes successfully,
and the decoded payload carries the same `id` and `email` as the
original identity payload. -/
theorem token_roundtrip_before_expiry (profile : UserProfile) (secret : String)
    (now t : Nat) (request : Request)
    (hc : lookupCookie request JWT_COOKIE_NAME
            = some (generateJwtToken profile secret now))
    (ht : (t : Int) < (now : Int) + 31536000) :
    getJwtTokenFromCookie request secret t =
      .ok (.obj [("id", .str profile.id), ("email", .str profile.email),
                 ("iat", .num (now : Int)),
                 ("exp", .num ((now : Int) + 31536000))]) ∧
    (∀ fields, getJwtTokenFromCookie request secret t = .ok (.obj fields) →
       lookupField fields "id" = some (.str profile.id) ∧
       lookupField fields "email" = some (.str profile.email)) := by
  have h315 : (60 * 60 * 24 * 365 : Int) = 31536000 := by norm_num
  have hc' : lookupCookie request JWT_COOKIE_NAME =
      some (.signed [("id", .str profile.id), ("email", .str profile.email),
                     ("iat", .num (now : Int)),
                     ("exp", .num ((now : Int) + 31536000))] secret) := by
    rw [hc]
    unfold generateJwtToken
    rw [h315]
  have hne : ¬(((now : Int) + 31536000) ≤ (t : Int)) := Int.not_le.mpr ht
  have hok : getJwtTokenFromCookie request secret t =
      .ok (.obj [("id", .str profile.id), ("email", .str profile.email),
                 ("iat", .num (now : Int)),
                 ("exp", .num ((now : Int) + 31536000))]) := by
    unfold getJwtTokenFromCookie
    rw [hc']
    simp [tokenIsFalsy, jwtVerify, lookupField, hne, isTokenValid]
  refine ⟨hok, fun fields hf => ?_⟩
  rw [hok] at hf
  have : Json.obj [("id", .str profile.id), ("email", .str profile.email),
                   ("iat", .num (now : Int)),
                   ("exp", .num ((now : Int) + 31536000))] = .obj fields := by
    injection hf
  cases this
  exact ⟨rfl, rfl⟩

/-- C8 witness: a token issued at time 100 is decoded at time 200. -/
theorem token_roundtrip_before_expiry_witness :
    getJwtTokenFromCookie
        ⟨[("jwt", generateJwtToken ⟨"u1", "a@x.com", "A", "hash", 1, 1⟩ "sec" 100)],
         .obj [], [], []⟩ "sec" 200 =
      .ok (.obj [("id", .str "u1"), ("email", .str "a@x.com"),
                 ("iat", .num 100), ("exp", .num (100 + 31536000))]) ∧
    (∀ fields,
       getJwtTokenFromCookie
           ⟨[("jwt", generateJwtToken ⟨"u1", "a@x.com", "A", "hash", 1, 1⟩ "sec" 100)],
            .obj [], [], []⟩ "sec" 200 = .ok (.obj fields) →
       lookupField fields "id" = some (.str "u1") ∧
       lookupField fields "email" = some (.str "a@x.com")) :=
  token_roundtrip_before_expiry ⟨"u1", "a@x.com", "A", "hash", 1, 1⟩ "sec" 100 200
    ⟨[("jwt", generateJwtToken ⟨"u1", "a@x.com", "A", "hash", 1, 1⟩ "sec" 100)],
     .obj [], [], []⟩ rfl (by norm_num)

/-- A validation failure always carries HTTP status 400. -/
theorem createValidate_error_status {schema : ObjectSchema} {input : Json}
    {r : HttpResponse} (h : createValidate schema input = .error r) :
    r.status = 400 := by
  unfold createValidate at h
  cases hz : zodParse schema input with
  | ok v => rw [hz] at h; exact Except.noConfusion h
  | error issues =>
    rw [hz] at h
    injection h with h'
    rw [← h']

/-- The guard only ever fails with the canonical 401 response. -/
theorem requireAuthentication_error_eq {request : Request} {secret : String}
    {now : Nat} {r : HttpResponse}
    (h : requireAuthentication request secret now = .error r) :
    r = unauthorizedResponse := by
  unfold requireAuthentication at h
  cases hg : getJwtTokenFromCookie request secret now with
  | ok p => rw [hg] at h; exact Except.noConfusion h
  | error e => rw [hg] at h; injection h with h'; exact h'.symm

/-- The profile serializer always exposes the stored password hash. -/
theorem profileToJson_hashedPassword (p : UserProfile) :
    jsonField (profileToJson p) "hashedPassword" = some (.str p.hashedPassword) := rfl

/-- `getUserProfileById` answers 200 only with the full serialization of
a stored record. -/
theorem getUserProfileById_200 {secret : String} {now : Nat} {request : Request}
    {store : Store}
    (h : (getUserProfileById secret now request store).response.status = 200) :
    ∃ p, p ∈ store ∧
      (getUserProfileById secret now request store).response.body = profileToJson p ∧
      jsonField ((getUserProfileById secret now request store).response.body)
        "hashedPassword" = some (.str p.hashedPassword) := by
  cases hra : requireAuthentication request secret now with
  | error r =>
    have heq : getUserProfileById secret now request store = ⟨r, store, [], []⟩ := by
      unfold getUserProfileById
      rw [hra]
    rw [heq, requireAuthentication_error_eq hra] at h
    simp [unauthorizedResponse] at h
  | ok payload =>
    cases hv : createValidate idParamsSchema (stringPairsToJson request.params) with
    | error r =>
      have heq : getUserProfileById secret now request store =
          ⟨r, store, [], [.validate]⟩ := by
        unfold getUserProfileById
        rw [hra, hv]
      rw [heq] at h
      have h2 : r.status = 200 := h
      rw [createValidate_error_status hv] at h2
      exact absurd h2 (by decide)
    | ok params =>
      cases hf : findById (getStringField params "id") store with
      | none =>
        have heq : getUserProfileById secret now request store =
            ⟨⟨404, .obj [("message", .str "Not Found")]⟩, store, [],
             [.validate, .dbRead]⟩ := by
          unfold getUserProfileById
          rw [hra, hv]
          simp [hf]
        rw [heq] at h
        simp at h
      | some p =>
        have heq : getUserProfileById secret now request store =
            ⟨⟨200, profileToJson p⟩, store, [], [.validate, .dbRead]⟩ := by
          unfold getUserProfileById
          rw [hra, hv]
          simp [hf]
        rw [heq]
        exact ⟨p, List.mem_of_find?_eq_some hf, rfl,
          profileToJson_hashedPassword p⟩

/-- `updateUserProfile` answers 200 only with the full serialization of
the record it stored. -/
theorem updateUserProfile_200 {secret : String} {now : Nat} {request : Request}
    {store : Store}
    (h : (updateUserProfile secret now request store).response.status = 200) :
    ∃ p, p ∈ (updateUserProfile secret now request store).store ∧
      (updateUserProfile secret now request store).response.body = profileToJson p ∧
      jsonField ((updateUserProfile secret now request store).response.body)
        "hashedPassword" = some (.str p.hashedPassword) := by
  cases hra : requireAuthentication request secret now with
  | error r =>
    have heq : updateUserProfile secret now request store = ⟨r, store, [], []⟩ := by
      unfold updateUserProfile
      rw [hra]
    rw [heq, requireAuthentication_error_eq hra] at h
    simp [unauthorizedResponse] at h
  | ok payload =>
    cases hv : createValidate idParamsSchema (stringPairsToJson request.params) with
    | error r =>
      have heq : updateUserProfile secret now request store =
          ⟨r, store, [], [.validate]⟩ := by
        unfold updateUserProfile
        rw [hra, hv]
      rw [heq] at h
      have h2 : r.status = 200 := h
      rw [createValidate_error_status hv] at h2
      exact absurd h2 (by decide)
    | ok params =>
      cases hb : createValidate patchBodySchema request.body with
      | error r =>
        have heq : updateUserProfile secret now request store =
            ⟨r, store, [], [.validate, .validate]⟩ := by
          unfold updateUserProfile
          rw [hra, hv, hb]
        rw [heq] at h
        have h2 : r.status = 200 := h
        rw [createValidate_error_status hb] at h2
        exact absurd h2 (by decide)
      | ok body =>
        by_cases hsz : jsonObjSize body = 0
        · have heq : updateUserProfile secret now request store =
              ⟨⟨400, .obj [("message", .str "No valid fields to update")]⟩, store,
               [], [.validate, .validate]⟩ := by
            unfold updateUserProfile
            rw [hra, hv, hb]
            simp [hsz]
          rw [heq] at h
          simp at h
        · by_cases hid : body.hasKey "id"
          · have heq : updateUserProfile secret now request store =
                ⟨⟨400, .obj [("message", .str "ID cannot be updated")]⟩, store,
                 [], [.validate, .validate]⟩ := by
              unfold updateUserProfile
              rw [hra, hv, hb]
              simp [hsz, hid]
            rw [heq] at h
            simp at h
          · cases hf : findById (getStringField params "id") store with
            | none =>
              have heq : updateUserProfile secret now request store =
                  ⟨⟨404, .obj [("message", .str "Not Found")]⟩, store,
                   [], [.validate, .validate, .dbWrite]⟩ := by
                unfold updateUserProfile
                rw [hra, hv, hb]
                simp [hsz, hid, hf]
              rw [heq] at h
              simp at h
            | some p =>
              by_cases hconf : emailConflict p body store
              · have heq : updateUserProfile secret now request store =
                    ⟨⟨409, .obj [("message", .str "Profile already exists")]⟩, store,
                     [], [.validate, .validate, .dbWrite]⟩ := by
                  unfold updateUserProfile
                  rw [hra, hv, hb]
                  simp [hsz, hid, hf, hconf]
                rw [heq] at h
                simp at h
              · have heq : updateUserProfile secret now request store =
                    ⟨⟨200, profileToJson (applyUpdate p body now)⟩,
                     store.map (fun q => if q.id = p.id then applyUpdate p body now else q),
                     [], [.validate, .validate, .dbWrite]⟩ := by
                  unfold updateUserProfile
                  rw [hra, hv, hb]
                  simp [hsz, hid, hf, hconf]
                rw [heq]
                refine ⟨applyUpdate p body now, ?_, rfl,
                  profileToJson_hashedPassword _⟩
                exact List.mem_map.mpr
                  ⟨p, List.mem_of_find?_eq_some hf, by rw [if_pos rfl]⟩

/-- `deleteUserProfile` answers 200 only with the full serialization of
the record that was stored. -/
theorem deleteUserProfile_200 {secret : String} {now : Nat} {request : Request}
    {store : Store}
    (h : (deleteUserProfile secret now request store).response.status = 200) :
    ∃ p, p ∈ store ∧
      (deleteUserProfile secret now request store).response.body = profileToJson p ∧
      jsonField ((deleteUserProfile secret now request store).response.body)
        "hashedPassword" = some (.str p.hashedPassword) := by
  cases hra : requireAuthentication request secret now with
  | error r =>
    have heq : deleteUserProfile secret now request store = ⟨r, store, [], []⟩ := by
      unfold deleteUserProfile
      rw [hra]
    rw [heq, requireAuthentication_error_eq hra] at h
    simp [unauthorizedResponse] at h
  | ok payload =>
    cases hv : createValidate idParamsSchema (stringPairsToJson request.params) with
    | error r =>
      have heq : deleteUserProfile secret now request store =
          ⟨r, store, [], [.validate]⟩ := by
        unfold deleteUserProfile
        rw [hra, hv]
      rw [heq] at h
      have h2 : r.status = 200 := h
      rw [createValidate_error_status hv] at h2
      exact absurd h2 (by decide)
    | ok params =>
      cases hf : findById (getStringField params "id") store with
      | none =>
        have heq : deleteUserProfile secret now request store =
            ⟨⟨404, .obj [("message", .str "Not Found")]⟩, store, [],
             [.validate, .dbWrite]⟩ := by
          unfold deleteUserProfile
          rw [hra, hv]
          simp [hf]
        rw [heq] at h
        simp at h
      | some p =>
        have heq : deleteUserProfile secret now request store =
            ⟨⟨200, profileToJson p⟩, store.eraseP (fun q => q.id = p.id), [],
             [.validate, .dbWrite]⟩ := by
          unfold deleteUserProfile
          rw [hra, hv]
          simp [hf]
        rw [heq]
        exact ⟨p, List.mem_of_find?_eq_some hf, rfl,
          profileToJson_hashedPassword p⟩

/-- C9: whenever GET /user-profiles/:id, PATCH /user-profiles/:id or
DELETE /user-profiles/:id succeeds with HTTP 200, the response body is
the stored record serialized verbatim — `hashedPassword` included, so
the password hash is exposed to any authenticated client. -/
theorem profile_handlers_expose_hashed_password :
    (∀ (secret : String) (now : Nat) (request : Request) (store : Store),
       (getUserProfileById secret now request store).response.status = 200 →
       ∃ p, p ∈ store ∧
         (getUserProfileById secret now request store).response.body = profileToJson p ∧
         jsonField ((getUserProfileById secret now request store).response.body)
           "hashedPassword" = some (.str p.hashedPassword)) ∧
    (∀ (secret : String) (now : Nat) (request : Request) (store : Store),
       (updateUserProfile secret now request store).response.status = 200 →
       ∃ p, p ∈ (updateUserProfile secret now request store).store ∧
         (updateUserProfile secret now request store).response.body = profileToJson p ∧
         jsonField ((updateUserProfile secret now request store).response.body)
           "hashedPassword" = some (.str p.hashedPassword)) ∧
    (∀ (secret : String) (now : Nat) (request : Request) (store : Store),
       (deleteUserProfile secret now request store).response.status = 200 →
       ∃ p, p ∈ store ∧
         (deleteUserProfile secret now request store).response.body = profileToJson p ∧
         jsonField ((deleteUserProfile secret now request store).response.body)
           "hashedPassword" = some (.str p.hashedPassword)) :=
  ⟨fun _ _ _ _ h => getUserProfileById_200 h,
   fun _ _ _ _ h => updateUserProfile_200 h,
   fun _ _ _ _ h => deleteUserProfile_200 h⟩

/-- C9 witness: an authenticated GET, PATCH and DELETE of profile `u1`
each return the record with its `hashedPassword`. -/
theorem profile_handlers_expose_hashed_password_witness :
    (∃ p, p ∈ ([⟨"u1", "a@x.com", "A", "hash", 1, 1⟩] : Store) ∧
      (getUserProfileById "sec" 0
        ⟨[("jwt", .signed [("id", .str "x"), ("email", .str "e@x.com")] "sec")],
         .obj [], [], [("id", "u1")]⟩
        [⟨"u1", "a@x.com", "A", "hash", 1, 1⟩]).response.body = profileToJson p ∧
      jsonField ((getUserProfileById "sec" 0
        ⟨[("jwt", .signed [("id", .str "x"), ("email", .str "e@x.com")] "sec")],
         .obj [], [], [("id", "u1")]⟩
        [⟨"u1", "a@x.com", "A", "hash", 1, 1⟩]).response.body) "hashedPassword"
        = some (.str p.hashedPassword)) ∧
    (∃ p, p ∈ (updateUserProfile "sec" 0
        ⟨[("jwt", .signed [("id", .str "x"), ("email", .str "e@x.com")] "sec")],
         .obj [("name", .str "B")], [], [("id", "u1")]⟩
        [⟨"u1", "a@x.com", "A", "hash", 1, 1⟩]).store ∧
      (updateUserProfile "sec" 0
        ⟨[("jwt", .signed [("id", .str "x"), ("email", .str "e@x.com")] "sec")],
         .obj [("name", .str "B")], [], [("id", "u1")]⟩
        [⟨"u1", "a@x.com", "A", "hash", 1, 1⟩]).response.body = profileToJson p ∧
      jsonField ((updateUserProfile "sec" 0
        ⟨[("jwt", .signed [("id", .str "x"), ("email", .str "e@x.com")] "sec")],
         .obj [("name", .str "B")], [], [("id", "u1")]⟩
        [⟨"u1", "a@x.com", "A", "hash", 1, 1⟩]).response.body) "hashedPassword"
        = some (.str p.hashedPassword)) ∧
    (∃ p, p ∈ ([⟨"u1", "a@x.com", "A", "hash", 1, 1⟩] : Store) ∧
      (deleteUserProfile "sec" 0
        ⟨[("jwt", .signed [("id", .str "x"), ("email", .str "e@x.com")] "sec")],
         .obj [], [], [("id", "u1")]⟩
        [⟨"u1", "a@x.com", "A", "hash", 1, 1⟩]).response.body = profileToJson p ∧
      jsonField ((deleteUserProfile "sec" 0
        ⟨[("jwt", .signed [("id", .str "x"), ("email", .str "e@x.com")] "sec")],
         .obj [], [], [("id", "u1")]⟩
        [⟨"u1", "a@x.com", "A", "hash", 1, 1⟩]).response.body) "hashedPassword"
        = some (.str p.hashedPassword)) :=
  ⟨profile_handlers_expose_hashed_password.1 "sec" 0
     ⟨[("jwt", .signed [("id", .str "x"), ("email", .str "e@x.com")] "sec")],
      .obj [], [], [("id", "u1")]⟩
     [⟨"u1", "a@x.com", "A", "hash", 1, 1⟩] rfl,
   profile_handlers_expose_hashed_password.2.1 "sec" 0
     ⟨[("jwt", .signed [("id", .str "x"), ("email", .str "e@x.com")] "sec")],
      .obj [("name", .str "B")], [], [("id", "u1")]⟩
     [⟨"u1", "a@x.com", "A", "hash", 1, 1⟩] rfl,
   profile_handlers_expose_hashed_password.2.2 "sec" 0
     ⟨[("jwt", .signed [("id", .str "x"), ("email", .str "e@x.com")] "sec")],
      .obj [], [], [("id", "u1")]⟩
     [⟨"u1", "a@x.com", "A", "hash", 1, 1⟩] rfl⟩

/-- Unfolding equation for `parseObjectFields` on an empty schema. -/
theorem parseObjectFields_nil (input : List (String × Json)) :
    parseObjectFields [] input = ([], []) := rfl

/-- Unfolding equation for `parseObjectFields` on a schema field. -/
theorem parseObjectFields_cons (name : String) (fs : FieldSchema)
    (rest : ObjectSchema) (input : List (String × Json)) :
    parseObjectFields ((name, fs) :: rest) input =
      match parseField name fs (lookupField input name) with
      | .error issues => (issues ++ (parseObjectFields rest input).1,
                          (parseObjectFields rest input).2)
      | .ok none => parseObjectFields rest input
      | .ok (some v) => ((parseObjectFields rest input).1,
                         (name, v) :: (parseObjectFields rest input).2) := rfl

/-- A failing `parseStringValue` raises at least one issue. -/
theorem parseStringValue_error_ne_nil {path : String} {checks : List StringCheck}
    {v : Json} {is : List Json}
    (h : parseStringValue path checks v = .error is) : is ≠ [] := by
  cases v <;> simp only [parseStringValue] at h
  case str s =>
    cases hfm : checks.flatMap (runStringCheck path s) with
    | nil => rw [hfm] at h; exact Except.noConfusion h
    | cons a as =>
      rw [hfm] at h
      injection h with h'
      subst h'
      simp
  all_goals
    injection h with h'
    subst h'
    simp

/-- A failing `parseField` raises at least one issue. -/
theorem parseField_error_ne_nil {path : String} {fs : FieldSchema}
    {v : Option Json} {is : List Json}
    (h : parseField path fs v = .error is) : is ≠ [] := by
  cases fs <;> cases v <;> simp only [parseField] at h
  case requiredString.none =>
    injection h with h'
    subst h'
    simp
  case requiredString.some checks w => exact parseStringValue_error_ne_nil h
  case optionalString.none => exact Except.noConfusion h
  case optionalString.some checks w => exact parseStringValue_error_ne_nil h
  case neverField.none => exact Except.noConfusion h
  case neverField.some w =>
    injection h with h'
    subst h'
    simp
  case coercedPositiveNumberDefault.none => exact Except.noConfusion h
  case coercedPositiveNumberDefault.some d w =>
    cases hn : jsToNumber w with
    | none =>
      rw [hn] at h
      have h2 : (Except.error [invalidTypeIssue "number" "nan"
          "Expected number, received nan" path] :
          Except (List Json) (Option Json)) = .error is := h
      injection h2 with h'
      subst h'
      simp
    | some n =>
      rw [hn] at h
      have h2 : (if 0 < n then
          (Except.ok (some (Json.num n)) : Except (List Json) (Option Json))
          else .error [numberTooSmallIssue path]) = .error is := h
      by_cases hpos : 0 < n
      · rw [if_pos hpos] at h2
        exact Except.noConfusion h2
      · rw [if_neg hpos] at h2
        injection h2 with h'
        subst h'
        simp

/-- A coerced-positive-number field with a positive default parses to a
positive number (the default itself when the parameter is absent). -/
theorem parseField_coerced_ok {path : String} {d : Int} {v : Option Json}
    {r : Option Json} (hd : 0 < d)
    (h : parseField path (.coercedPositiveNumberDefault d) v = .ok r) :
    ∃ n : Int, r = some (.num n) ∧ 0 < n ∧ (v = none → n = d) := by
  cases v with
  | none =>
    simp only [parseField] at h
    injection h with h'
    exact ⟨d, h'.symm, hd, fun _ => rfl⟩
  | some w =>
    simp only [parseField] at h
    cases hn : jsToNumber w with
    | none => rw [hn] at h; exact Except.noConfusion h
    | some n =>
      rw [hn] at h
      have h2 : (if 0 < n then
          (Except.ok (some (Json.num n)) : Except (List Json) (Option Json))
          else .error [numberTooSmallIssue path]) = .ok r := h
      by_cases hpos : 0 < n
      · rw [if_pos hpos] at h2
        injection h2 with h'
        exact ⟨n, h'.symm, hpos, fun hv => Option.noConfusion hv⟩
      · rw [if_neg hpos] at h2
        exact Except.noConfusion h2

/-- A successful `createValidate` means `zodParse` succeeded with the
same value. -/
theorem createValidate_ok {schema : ObjectSchema} {input : Json} {q : Json}
    (h : createValidate schema input = .ok q) :
    zodParse schema input = .ok q := by
  unfold createValidate at h
  cases hz : zodParse schema input with
  | ok v =>
    rw [hz] at h
    have h2 : (Except.ok v : Except HttpResponse Json) = .ok q := h
    injection h2 with h3
    rw [h3]
  | error issues => rw [hz] at h; exact Except.noConfusion h

/-- A successful `zodParse` of an object means no field raised an issue
and the result is the object of parsed fields. -/
theorem zodParse_obj_ok {schema : ObjectSchema} {input : List (String × Json)}
    {q : Json} (h : zodParse schema (.obj input) = .ok q) :
    (parseObjectFields schema input).1 = [] ∧
    q = .obj (parseObjectFields schema input).2 := by
  unfold zodParse at h
  have h2 : (match parseObjectFields schema input with
      | ([], parsed) => (Except.ok (Json.obj parsed) : Except (List Json) Json)
      | (issues, _) => .error issues) = .ok q := h
  rcases hpo : parseObjectFields schema input with ⟨is, parsed⟩
  rw [hpo] at h2
  cases is with
  | nil =>
    have h3 : (Except.ok (Json.obj parsed) : Except (List Json) Json) = .ok q := h2
    injection h3 with h4
    exact ⟨rfl, h4.symm⟩
  | cons a as => exact Except.noConfusion h2

/-- A successful parse of the pagination query yields a positive page and
pageSize, defaulting to 1 and 10 for absent parameters. -/
theorem paginationParse_fields {input : List (String × Json)} {q : Json}
    (h : createValidate paginationQuerySchema (.obj input) = .ok q) :
    ∃ p s : Int, q = .obj [("page", .num p), ("pageSize", .num s)] ∧
      0 < p ∧ 0 < s ∧
      (lookupField input "page" = none → p = 1) ∧
      (lookupField input "pageSize" = none → s = 10) := by
  have hz := createValidate_ok h
  have hz1 := (zodParse_obj_ok hz).1
  have hz2 := (zodParse_obj_ok hz).2
  cases hpg : parseField "page" (.coercedPositiveNumberDefault 1)
      (lookupField input "page") with
  | error is =>
    exfalso
    have e : (parseObjectFields paginationQuerySchema input).1 =
        is ++ (parseObjectFields
          [("pageSize", FieldSchema.coercedPositiveNumberDefault 10)] input).1 := by
      simp [paginationQuerySchema, parseObjectFields_cons, hpg]
    rw [e] at hz1
    exact parseField_error_ne_nil hpg (List.append_eq_nil.mp hz1).1
  | ok v1 =>
    obtain ⟨n1, hv1, hn1, hd1⟩ := parseField_coerced_ok (by decide) hpg
    subst hv1
    cases hps : parseField "pageSize" (.coercedPositiveNumberDefault 10)
        (lookupField input "pageSize") with
    | error is =>
      exfalso
      have e : (parseObjectFields paginationQuerySchema input).1 = is := by
        simp [paginationQuerySchema, parseObjectFields_cons, parseObjectFields_nil,
          hpg, hps]
      rw [e] at hz1
      exact parseField_error_ne_nil hps hz1
    | ok v2 =>
      obtain ⟨n2, hv2, hn2, hd2⟩ := parseField_coerced_ok (by decide) hps
      subst hv2
      have e : parseObjectFields paginationQuerySchema input =
          ([], [("page", .num n1), ("pageSize", .num n2)]) := by
        simp [paginationQuerySchema, parseObjectFields_cons, parseObjectFields_nil,
          hpg, hps]
      rw [e] at hz2
      exact ⟨n1, n2, hz2, hn1, hn2,
        fun hnone => hd1 (by rw [hnone]),
        fun hnone => hd2 (by rw [hnone])⟩

/-- A query parameter absent from the raw request stays absent after the
lift to a JSON object. -/
theorem stringPairs_lookup_none (pairs : List (String × String)) (k : String)
    (h : pairs.find? (fun kv => kv.1 = k) = none) :
    lookupField (pairs.map (fun kv => (kv.1, Json.str kv.2))) k = none := by
  induction pairs with
  | nil => rfl
  | cons hd tl ih =>
    by_cases hk : hd.1 = k
    · rw [List.find?_cons_of_pos _ (by simp [hk])] at h
      exact Option.noConfusion h
    · rw [List.find?_cons_of_neg _ (by simp [hk])] at h
      show (if hd.1 = k then some (Json.str hd.2)
            else lookupField (tl.map (fun kv => (kv.1, Json.str kv.2))) k) = none
      rw [if_neg hk]
      exact ih h

/-- C10: an authenticated GET /user-profiles whose pagination query
validates returns exactly the profiles ordered by `createdAt`
descending, skipping the first `(page - 1) * pageSize` records and
taking at most `pageSize`; page defaults to 1 and pageSize to 10 when
the parameters are omitted, and both are positive. -/
theorem pagination_ordered_and_bounded (secret : String) (now : Nat)
    (request : Request) (store : Store) (payload q : Json)
    (hauth : requireAuthentication request secret now = .ok payload)
    (hq : createValidate paginationQuerySchema (stringPairsToJson request.query)
            = .ok q) :
    ∃ p s : Int,
      getNumField q "page" 0 = p ∧ getNumField q "pageSize" 10 = s ∧
      0 < p ∧ 0 < s ∧
      getAllUserProfiles secret now request store =
        ⟨⟨200, .arr ((((List.insertionSort createdAtDesc store).drop
            ((p - 1) * s).toNat).take s.toNat).map profileToJson)⟩,
         store, [], [.validate, .dbRead]⟩ ∧
      (((List.insertionSort createdAtDesc store).drop ((p - 1) * s).toNat).take
          s.toNat).length ≤ s.toNat ∧
      List.Sorted createdAtDesc
        (((List.insertionSort createdAtDesc store).drop ((p - 1) * s).toNat).take
          s.toNat) ∧
      (request.query.find? (fun kv => kv.1 = "page") = none → p = 1) ∧
      (request.query.find? (fun kv => kv.1 = "pageSize") = none → s = 10) := by
  have hq' : createValidate paginationQuerySchema
      (.obj (request.query.map (fun kv => (kv.1, Json.str kv.2)))) = .ok q := hq
  obtain ⟨p, s, hqeq, hp, hs, hdp, hds⟩ := paginationParse_fields hq'
  subst hqeq
  refine ⟨p, s, rfl, rfl, hp, hs, ?_, List.length_take_le _ _, ?_, ?_, ?_⟩
  · unfold getAllUserProfiles
    rw [hauth, hq]
    rfl
  · exact (List.sorted_insertionSort createdAtDesc store).sublist
      ((List.take_sublist _ _).trans (List.drop_sublist _ _))
  · intro hnone
    exact hdp (stringPairs_lookup_none _ _ hnone)
  · intro hnone
    exact hds (stringPairs_lookup_none _ _ hnone)

/-- C10 witness: an authenticated listing with no query parameters and
an empty store pages with the defaults 1 and 10. -/
theorem pagination_ordered_and_bounded_witness :
    ∃ p s : Int,
      getNumField (.obj [("page", .num 1), ("pageSize", .num 10)]) "page" 0 = p ∧
      getNumField (.obj [("page", .num 1), ("pageSize", .num 10)]) "pageSize" 10 = s ∧
      0 < p ∧ 0 < s ∧
      getAllUserProfiles "sec" 0
          ⟨[("jwt", .signed [("id", .str "x"), ("email", .str "e@x.com")] "sec")],
           .obj [], [], []⟩ [] =
        ⟨⟨200, .arr ((((List.insertionSort createdAtDesc ([] : Store)).drop
            ((p - 1) * s).toNat).take s.toNat).map profileToJson)⟩,
         [], [], [.validate, .dbRead]⟩ ∧
      (((List.insertionSort createdAtDesc ([] : Store)).drop ((p - 1) * s).toNat).take
          s.toNat).length ≤ s.toNat ∧
      List.Sorted createdAtDesc
        (((List.insertionSort createdAtDesc ([] : Store)).drop ((p - 1) * s).toNat).take
          s.toNat) ∧
      (([] : List (String × String)).find? (fun kv => kv.1 = "page") = none → p = 1) ∧
      (([] : List (String × String)).find? (fun kv => kv.1 = "pageSize") = none → s = 10) :=
  pagination_ordered_and_bounded "sec" 0
    ⟨[("jwt", .signed [("id", .str "x"), ("email", .str "e@x.com")] "sec")],
     .obj [], [], []⟩ []
    (.obj [("id", .str "x"), ("email", .str "e@x.com")])
    (.obj [("page", .num 1), ("pageSize", .num 10)]) rfl rfl

/-- Every issue a string refinement raises has `code`, `message` and
`path`. -/
theorem runStringCheck_basicKeys (path s : String) (c : StringCheck) :
    ∀ j ∈ runStringCheck path s c, issueHasBasicKeys j = true := by
  intro j hj
  cases c with
  | email =>
    by_cases hc : isEmailFormat s
    · simp [runStringCheck, hc] at hj
    · simp [runStringCheck, hc] at hj
      subst hj
      rfl
  | minLength n =>
    by_cases hc : n ≤ s.length
    · simp [runStringCheck, hc] at hj
    · simp [runStringCheck, hc] at hj
      subst hj
      rfl
  | cuid2 =>
    by_cases hc : isCuid2Format s
    · simp [runStringCheck, hc] at hj
    · simp [runStringCheck, hc] at hj
      subst hj
      rfl

/-- A string refinement raises at most one issue. -/
theorem runStringCheck_length (path s : String) (c : StringCheck) :
    (runStringCheck path s c).length ≤ 1 := by
  cases c with
  | email =>
    by_cases hc : isEmailFormat s <;> simp [runStringCheck, hc]
  | minLength n =>
    by_cases hc : n ≤ s.length <;> simp [runStringCheck, hc]
  | cuid2 =>
    by_cases hc : isCuid2Format s <;> simp [runStringCheck, hc]

/-- Every issue of a failing string-value parse has the basic keys. -/
theorem parseStringValue_error_basicKeys {path : String}
    {checks : List StringCheck} {v : Json} {is : List Json}
    (h : parseStringValue path checks v = .error is) :
    ∀ j ∈ is, issueHasBasicKeys j = true := by
  cases v <;> simp only [parseStringValue] at h
  case str s =>
    cases hfm : checks.flatMap (runStringCheck path s) with
    | nil => rw [hfm] at h; exact Except.noConfusion h
    | cons a as =>
      rw [hfm] at h
      injection h with h'
      subst h'
      intro j hj
      rw [← hfm] at hj
      obtain ⟨c, hc, hjc⟩ := List.mem_flatMap.mp hj
      exact runStringCheck_basicKeys path s c j hjc
  all_goals
    injection h with h'
    subst h'
    intro j hj
    simp at hj
    subst hj
    rfl

/-- A failing string-value parse against at most one refinement raises
exactly one issue. -/
theorem parseStringValue_error_length {path : String}
    {checks : List StringCheck} {v : Json} {is : List Json}
    (hs : checks.length ≤ 1) (h : parseStringValue path checks v = .error is) :
    is.length = 1 := by
  cases v <;> simp only [parseStringValue] at h
  case str s =>
    cases checks with
    | nil => exact Except.noConfusion h
    | cons c cs =>
      cases cs with
      | nil =>
        have hfm : ([c] : List StringCheck).flatMap (runStringCheck path s)
            = runStringCheck path s c ++ [] := rfl
        rw [hfm] at h
        cases hrc : runStringCheck path s c with
        | nil => rw [hrc] at h; exact Except.noConfusion h
        | cons a as =>
          rw [hrc] at h
          injection h with h'
          subst h'
          have hle := runStringCheck_length path s c
          rw [hrc] at hle
          simp only [List.append_eq, List.append_nil, List.length_cons,
            List.length_append, List.length_nil] at hle ⊢
          omega
      | cons c2 cs2 => simp at hs
  all_goals
    injection h with h'
    subst h'
    rfl

/-- Every issue of a failing field parse has the basic keys. -/
theorem parseField_error_basicKeys {path : String} {fs : FieldSchema}
    {v : Option Json} {is : List Json}
    (h : parseField path fs v = .error is) :
    ∀ j ∈ is, issueHasBasicKeys j = true := by
  cases fs <;> cases v <;> simp only [parseField] at h
  case requiredString.none =>
    injection h with h'
    subst h'
    intro j hj
    simp at hj
    subst hj
    rfl
  case requiredString.some checks w => exact parseStringValue_error_basicKeys h
  case optionalString.none => exact Except.noConfusion h
  case optionalString.some checks w => exact parseStringValue_error_basicKeys h
  case neverField.none => exact Except.noConfusion h
  case neverField.some w =>
    injection h with h'
    subst h'
    intro j hj
    simp at hj
    subst hj
    rfl
  case coercedPositiveNumberDefault.none => exact Except.noConfusion h
  case coercedPositiveNumberDefault.some d w =>
    cases hn : jsToNumber w with
    | none =>
      rw [hn] at h
      have h2 : (Except.error [invalidTypeIssue "number" "nan"
          "Expected number, received nan" path] :
          Except (List Json) (Option Json)) = .error is := h
      injection h2 with h'
      subst h'
      intro j hj
      simp at hj
      subst hj
      rfl
    | some n =>
      rw [hn] at h
      have h2 : (if 0 < n then
          (Except.ok (some (Json.num n)) : Except (List Json) (Option Json))
          else .error [numberTooSmallIssue path]) = .error is := h
      by_cases hpos : 0 < n
      · rw [if_pos hpos] at h2
        exact Except.noConfusion h2
      · rw [if_neg hpos] at h2
        injection h2 with h'
        subst h'
        intro j hj
        simp at hj
        subst hj
        rfl

/-- A failing field parse of an app-schema field (at most one refinement
per field) raises exactly one issue. -/
theorem parseField_error_length {path : String} {fs : FieldSchema}
    {v : Option Json} {is : List Json}
    (hs : singleCheckField fs = true)
    (h : parseField path fs v = .error is) : is.length = 1 := by
  cases fs <;> cases v <;> simp only [parseField] at h
  case requiredString.none =>
    injection h with h'
    subst h'
    rfl
  case requiredString.some checks w =>
    exact parseStringValue_error_length (by simpa [singleCheckField] using hs) h
  case optionalString.none => exact Except.noConfusion h
  case optionalString.some checks w =>
    exact parseStringValue_error_length (by simpa [singleCheckField] using hs) h
  case neverField.none => exact Except.noConfusion h
  case neverField.some w =>
    injection h with h'
    subst h'
    rfl
  case coercedPositiveNumberDefault.none => exact Except.noConfusion h
  case coercedPositiveNumberDefault.some d w =>
    cases hn : jsToNumber w with
    | none =>
      rw [hn] at h
      have h2 : (Except.error [invalidTypeIssue "number" "nan"
          "Expected number, received nan" path] :
          Except (List Json) (Option Json)) = .error is := h
      injection h2 with h'
      subst h'
      rfl
    | some n =>
      rw [hn] at h
      have h2 : (if 0 < n then
          (Except.ok (some (Json.num n)) : Except (List Json) (Option Json))
          else .error [numberTooSmallIssue path]) = .error is := h
      by_cases hpos : 0 < n
      · rw [if_pos hpos] at h2
        exact Except.noConfusion h2
      · rw [if_neg hpos] at h2
        injection h2 with h'
        subst h'
        rfl

/-- The issues of an object parse are exactly one per failing field,
for schemas whose fields carry at most one refinement. -/
theorem parseObjectFields_count (schema : ObjectSchema)
    (input : List (String × Json))
    (hs : ∀ nf ∈ schema, singleCheckField nf.2 = true) :
    (parseObjectFields schema input).1.length
      = (schema.filter (parseFieldFails input)).length := by
  induction schema with
  | nil => rfl
  | cons nf rest ih =>
    obtain ⟨name, fs⟩ := nf
    have hhd : singleCheckField fs = true := hs (name, fs) (by simp)
    have htl : ∀ nf ∈ rest, singleCheckField nf.2 = true :=
      fun nf hnf => hs nf (List.mem_cons_of_mem _ hnf)
    rw [parseObjectFields_cons]
    cases hpf : parseField name fs (lookupField input name) with
    | error is =>
      have hlen := parseField_error_length hhd hpf
      have hfail : parseFieldFails input (name, fs) = true := by
        unfold parseFieldFails
        rw [hpf]
      rw [List.filter_cons_of_pos hfail]
      simp [hlen, ih htl]
      omega
    | ok v =>
      have hok : parseFieldFails input (name, fs) = false := by
        unfold parseFieldFails
        rw [hpf]
      rw [List.filter_cons_of_neg (by simp [hok])]
      cases v with
      | none => exact ih htl
      | some w => exact ih htl

/-- Every issue an object parse collects has the basic keys. -/
theorem parseObjectFields_basicKeys (schema : ObjectSchema)
    (input : List (String × Json)) :
    ∀ j ∈ (parseObjectFields schema input).1, issueHasBasicKeys j = true := by
  induction schema with
  | nil => intro j hj; simp [parseObjectFields] at hj
  | cons nf rest ih =>
    obtain ⟨name, fs⟩ := nf
    intro j hj
    rw [parseObjectFields_cons] at hj
    cases hpf : parseField name fs (lookupField input name) with
    | error is =>
      rw [hpf] at hj
      have hj2 : j ∈ is ++ (parseObjectFields rest input).1 := hj
      rcases List.mem_append.mp hj2 with hmem | hmem
      · exact parseField_error_basicKeys hpf j hmem
      · exact ih j hmem
    | ok v =>
      rw [hpf] at hj
      cases v with
      | none => exact ih j hj
      | some w =>
        have hj2 : j ∈ (parseObjectFields rest input).1 := hj
        exact ih j hj2

/-- A failing `createValidate` of an object produces exactly the 400
response over the collected issues, which are nonempty. -/
theorem createValidate_obj_error {schema : ObjectSchema}
    {input : List (String × Json)} {resp : HttpResponse}
    (h : createValidate schema (.obj input) = .error resp) :
    resp = ⟨400, .obj [("message", .str "Bad Request"),
      ("errors", .arr (parseObjectFields schema input).1)]⟩ ∧
    (parseObjectFields schema input).1 ≠ [] := by
  unfold createValidate at h
  cases hz : zodParse schema (.obj input) with
  | ok v => rw [hz] at h; exact Except.noConfusion h
  | error issues =>
    rw [hz] at h
    have h2 : (Except.error (⟨400, .obj [("message", .str "Bad Request"),
        ("errors", .arr issues)]⟩ : HttpResponse) :
        Except HttpResponse Json) = .error resp := h
    injection h2 with h3
    unfold zodParse at hz
    have hz2 : (match parseObjectFields schema input with
        | ([], parsed) => (Except.ok (Json.obj parsed) : Except (List Json) Json)
        | (is, _) => .error is) = .error issues := hz
    rcases hpo : parseObjectFields schema input with ⟨is, parsed⟩
    rw [hpo] at hz2
    cases is with
    | nil => exact Except.noConfusion hz2
    | cons a as =>
      have h4 : (Except.error (a :: as) : Except (List Json) Json)
          = .error issues := hz2
      injection h4 with h5
      constructor
      · rw [← h3, ← h5]
      · simp

/-- C5 counterexample: a login body whose email is present but not in
email format fails validation with a single `invalid_string` issue that
carries no `expected` and no `received` key — refuting the claim that
every error entry has `code`, `expected`, `message`, `path` and
`received`. -/
theorem validation_error_entry_lacks_expected_received :
    createValidate loginBodySchema
        (.obj [("email", .str "not-an-email"), ("password", .str "password123")])
      = .error ⟨400, .obj [("message", .str "Bad Request"),
          ("errors", .arr [invalidStringIssue "email" "email"])]⟩ ∧
    (invalidStringIssue "email" "email").hasKey "code" = true ∧
    (invalidStringIssue "email" "email").hasKey "message" = true ∧
    (invalidStringIssue "email" "email").hasKey "path" = true ∧
    (invalidStringIssue "email" "email").hasKey "expected" = false ∧
    (invalidStringIssue "email" "email").hasKey "received" = false :=
  ⟨rfl, rfl, rfl, rfl, rfl, rfl⟩

/-- C5 (amended): for every app schema and every input object that fails
validation, the validator answers HTTP 400 with body
`{ message: 'Bad Request', errors }`, where `errors` holds exactly one
entry per failing field, every entry carries `code`, `message` and
`path` (type errors additionally carry `expected` and `received`), and a
failing validation short-circuits the handler into returning that
response with no store access. -/
theorem validation_failure_shape (schema : ObjectSchema)
    (fields : List (String × Json)) (resp : HttpResponse)
    (hsch : schema = loginBodySchema ∨ schema = idParamsSchema ∨
            schema = patchBodySchema ∨ schema = paginationQuerySchema)
    (h : createValidate schema (.obj fields) = .error resp) :
    resp.status = 400 ∧
    resp = ⟨400, .obj [("message", .str "Bad Request"),
      ("errors", .arr (parseObjectFields schema fields).1)]⟩ ∧
    (parseObjectFields schema fields).1.length
      = (schema.filter (parseFieldFails fields)).length ∧
    0 < (schema.filter (parseFieldFails fields)).length ∧
    (∀ j ∈ (parseObjectFields schema fields).1, issueHasBasicKeys j = true) ∧
    (∀ (compare : String → String → Bool) (secret : String) (now : Nat)
       (request : Request) (store : Store) (r : HttpResponse),
       createValidate loginBodySchema request.body = .error r →
       login compare secret now request store = ⟨r, store, [], [.validate]⟩) := by
  obtain ⟨heq, hne⟩ := createValidate_obj_error h
  have hsingle : ∀ nf ∈ schema, singleCheckField nf.2 = true := by
    rcases hsch with h1 | h1 | h1 | h1 <;> subst h1 <;> decide
  have hcount := parseObjectFields_count schema fields hsingle
  refine ⟨by rw [heq], heq, hcount, ?_,
    parseObjectFields_basicKeys schema fields, ?_⟩
  · rw [← hcount]
    cases hl : (parseObjectFields schema fields).1 with
    | nil => exact absurd hl hne
    | cons a as => simp
  · intro compare secret now request store r hr
    unfold login
    rw [hr]

/-- C5 witness: a login body missing both fields yields the 400 with one
`Required` entry per missing field. -/
theorem validation_failure_shape_witness :
    (⟨400, .obj [("message", .str "Bad Request"),
       ("errors", .arr [invalidTypeIssue "string" "undefined" "Required" "email",
         invalidTypeIssue "string" "undefined" "Required" "password"])]⟩
      : HttpResponse).status = 400 ∧
    (⟨400, .obj [("message", .str "Bad Request"),
       ("errors", .arr [invalidTypeIssue "string" "undefined" "Required" "email",
         invalidTypeIssue "string" "undefined" "Required" "password"])]⟩
      : HttpResponse) =
      ⟨400, .obj [("message", .str "Bad Request"),
        ("errors", .arr (parseObjectFields loginBodySchema []).1)]⟩ ∧
    (parseObjectFields loginBodySchema []).1.length
      = (loginBodySchema.filter (parseFieldFails [])).length ∧
    0 < (loginBodySchema.filter (parseFieldFails [])).length ∧
    (∀ j ∈ (parseObjectFields loginBodySchema []).1, issueHasBasicKeys j = true) ∧
    (∀ (compare : String → String → Bool) (secret : String) (now : Nat)
       (request : Request) (store : Store) (r : HttpResponse),
       createValidate loginBodySchema request.body = .error r →
       login compare secret now request store = ⟨r, store, [], [.validate]⟩) :=
  validation_failure_shape loginBodySchema [] _ (.inl rfl) rfl

end ExpressTsApp
